import Mathlib

/-!
# NovaCore — shallow embedding and verification of spec claims

This file embeds, in Lean 4, the parts of the NovaCore Python code base that
the specification's testable claims are about, and proves (or refutes) each
claim against the embedding.

Conventions of the embedding:
* Python `float` values are modelled as `ℚ` (all constants in the source are
  decimal literals, so rational arithmetic reproduces the intended numerics
  exactly; no floating-point rounding behaviour is claim-relevant).
* Python strings are `String`, `str.lower()` is `pyLower`,
  `str.strip()` is `pyStrip`, and the `in` substring test is `strContains`.
* Python dicts holding heterogeneous JSON-like data are association lists
  over a small value type; dicts with a fixed field set are structures.
* Calls to `random.*` and `time.time()` are modelled by explicit parameters.
* Mutation of an object is modelled by returning the updated value.
-/

namespace NovaCore

/-- Python whitespace for `str.strip()`. -/
def isPySpace (c : Char) : Bool :=
  c = ' ' || c = '\t' || c = '\n' || c = '\x0b' || c = '\x0c' || c = '\r'

/-- Python `str.strip()`: remove leading and trailing whitespace. -/
def pyStrip (s : String) : String :=
  String.mk (((s.toList.dropWhile isPySpace).reverse.dropWhile isPySpace).reverse)

/-- Python `str.lower()` (ASCII case mapping, which covers every literal
in the source). -/
def pyLower (s : String) : String :=
  String.mk (s.toList.map Char.toLower)

/-- Substring test on lists of characters: `needle` occurs inside `hay`
(Python's `needle in hay` for strings). -/
def listContainsSeq (hay needle : List Char) : Bool :=
  match hay with
  | [] => needle.isEmpty
  | _ :: t => needle.isPrefixOf hay || listContainsSeq t needle

/-- Python's substring operator `needle in hay` for strings. -/
def strContains (hay needle : String) : Bool :=
  listContainsSeq hay.toList needle.toList

/-- First-occurrence-ordered list of the distinct elements of `l`
(the iteration order of a Python `dict` / `collections.Counter` built
from `l`). -/
def uniqKeys : List String → List String
  | [] => []
  | x :: xs => x :: (uniqKeys xs).filter (fun y => y ≠ x)

/-- Lookup in an association list modelling a Python dict
(`d.get(k)` / `d[k]`). -/
def lookupA {α : Type} (l : List (String × α)) (k : String) : Option α :=
  (l.find? (fun p => p.1 == k)).map Prod.snd

/-- Assignment `d[k] = v` on an association list modelling a Python dict:
overwrite in place when the key exists, append otherwise. -/
def setA {α : Type} (l : List (String × α)) (k : String) (v : α) :
    List (String × α) :=
  if (l.find? (fun p => p.1 == k)).isSome then
    l.map (fun p => if p.1 == k then (k, v) else p)
  else
    l ++ [(k, v)]

/-! ## mood_engine.py -/

/-- Running arg-max with strictly-greater
replacement: the first element attaining the maximal count wins
(CPython's `max` / `Counter.most_common(1)` tie behaviour). -/
def pickMax (history : List String) (best : String × ℕ) :
    List String → String × ℕ
  | [] => best
  | k :: ks =>
      if history.count k > best.2 then pickMax history (k, history.count k) ks
      else pickMax history best ks

/-- The operation `Counter(history).most_common(1)[0]`: the element of `history` with
the greatest multiplicity, first occurrence winning ties, paired with its
count.  Only meaningful for nonempty `history`. -/
def mostCommon1 (history : List String) : String × ℕ :=
  match uniqKeys history with
  | [] => ("", 0)
  | k :: ks => pickMax history (k, history.count k) ks

/-- From `mood_engine.calculate_mood`: majority-vote mood over the recent
emotion history; an emotion must appear at least twice to become mood,
otherwise `"neutral"`. -/
def calculate_mood (history : List String) : String :=
  if history = [] then "neutral"
  else
    let (emotion, amount) := mostCommon1 history
    if amount < 2 then "neutral" else emotion

/-! ## fusion_engine.py -/

/-- The fixed `FUSION_RULES` fusion rule table, keyed by
`(primary, modifier)`, in source-declared order. -/
def FUSION_RULES : List ((String × String) × String) :=
  [(("sad", "lonely"), "insecure"),
   (("sad", "loneliness"), "insecure"),
   (("happy", "shy"), "tender"),
   (("happy", "bashful"), "tender"),
   (("happy", "soft"), "tender"),
   (("curious", "afraid"), "flustered"),
   (("curious", "anxious"), "flustered"),
   (("curious", "nervous"), "flustered"),
   (("nostalgic", "sad"), "bittersweet"),
   (("nostalgic", "tired"), "bittersweet"),
   (("happy", "angry"), "mischievous"),
   (("happy", "annoyed"), "mischievous"),
   (("excited", "angry"), "mischievous"),
   (("excited", "annoyed"), "mischievous"),
   (("curious", "annoyed"), "teasing_irritation"),
   (("happy", "jealous"), "possessive_warmth"),
   (("nostalgic", "jealous"), "possessive_warmth"),
   (("bored", "restless"), "frustrated"),
   (("bored", "impatient"), "frustrated"),
   (("afraid", "lonely"), "clingy"),
   (("afraid", "abandoned"), "clingy"),
   (("calm", "lonely"), "quiet_ache"),
   (("sad", "jealous"), "bitter"),
   (("sad", "envy"), "bitter"),
   (("happy", "envy"), "competitive_warmth")]

/-- Dict lookup `FUSION_RULES[key]` guarded by `key in FUSION_RULES`. -/
def fusionLookup (key : String × String) : Option String :=
  (FUSION_RULES.find? (fun p => p.1 == key)).map Prod.snd

/-- From `fusion_engine._normalize`: lowercase/trim a label, mapping empty or
missing labels to `none`. -/
def fusionNormalize (emotion : Option String) : Option String :=
  match emotion with
  | none => none
  | some e =>
      if e = "" then none
      else
        let t := pyLower (pyStrip e)
        if t = "" then none else some t

/-- Search the rule table for the first modifier in `mods` (already
normalized) that forms a known `(primary, modifier)` key. -/
def findFusion (p : String) : List String → Option String
  | [] => none
  | m :: ms =>
      match fusionLookup (p, m) with
      | some fusion => some fusion
      | none => findFusion p ms

/-- Filtering-out of falsy modifiers followed by normalization, as done
on both the secondary and the spike list inside `compute_fusion`. -/
def normMods (l : List String) : List String :=
  (l.filter (fun s => s ≠ "")).filterMap (fun s => fusionNormalize (some s))

/-- From `fusion_engine.compute_fusion`: pure fusion lookup.  Spike modifiers
are tried before secondary shades; the first `(primary, modifier)` key
present in `FUSION_RULES` wins; no match yields `none`. -/
def compute_fusion (primary : Option String)
    (secondary_list : List String := []) (spikes : List String := []) :
    Option String :=
  match fusionNormalize primary with
  | none => none
  | some p =>
      let sec_norm := normMods secondary_list
      let spike_norm := normMods spikes
      match findFusion p spike_norm with
      | some fusion => some fusion
      | none => findFusion p sec_norm

/-! ### Lemmas about `findFusion` -/

theorem findFusion_none {p : String} :
    ∀ {ms : List String}, (∀ m, m ∈ ms → fusionLookup (p, m) = none) →
      findFusion p ms = none := by
  intro ms
  induction ms with
  | nil => intro _; rfl
  | cons m ms ih =>
      intro hall
      have hm : fusionLookup (p, m) = none := hall m (List.mem_cons_self m ms)
      simp only [findFusion, hm]
      exact ih (fun m' hm' => hall m' (List.mem_cons_of_mem m hm'))

/-- Claim C4: `compute_fusion` is a pure rule-table lookup: the spec's two
concrete examples hold; spike modifiers take priority over secondary
shades; within a modifier list the first `(primary, modifier)` pair
present in `FUSION_RULES` wins; and when no pair of the normalized
primary with any tried modifier is in the table, the result is `none`. -/
theorem compute_fusion_spec :
    compute_fusion (some "sad") ["lonely"] [] = some "insecure" ∧
    compute_fusion (some "happy") ["shy"] [] = some "tender" ∧
    (∀ (po : Option String) (sec spikes : List String) (p f : String),
      fusionNormalize po = some p →
      findFusion p (normMods spikes) = some f →
      compute_fusion po sec spikes = some f) ∧
    (∀ (p f : String) (m : String) (ms : List String),
      fusionLookup (p, m) = some f → findFusion p (m :: ms) = some f) ∧
    (∀ (p m : String) (ms : List String),
      fusionLookup (p, m) = none → findFusion p (m :: ms) = findFusion p ms) ∧
    (∀ (po : Option String) (sec spikes : List String) (p : String),
      fusionNormalize po = some p →
      (∀ m, m ∈ normMods sec ++ normMods spikes → fusionLookup (p, m) = none) →
      compute_fusion po sec spikes = none) ∧
    (∀ (sec spikes : List String), compute_fusion none sec spikes = none) := by
  refine ⟨by decide, by decide, ?_, ?_, ?_, ?_, ?_⟩
  · intro po sec spikes p f hp hsp
    simp [compute_fusion, hp, hsp]
  · intro p f m ms hm
    simp [findFusion, hm]
  · intro p m ms hm
    simp [findFusion, hm]
  · intro po sec spikes p hp hall
    have hsec : findFusion p (normMods sec) = none :=
      findFusion_none (fun m hm => hall m (List.mem_append_left _ hm))
    have hsp : findFusion p (normMods spikes) = none :=
      findFusion_none (fun m hm => hall m (List.mem_append_right _ hm))
    simp [compute_fusion, hp, hsec, hsp]
  · intro sec spikes
    rfl

/-- Witness for C4: the no-match clause applied to a concrete pair
outside the rule table (`("sad", "happy")`). -/
theorem compute_fusion_spec_witness :
    compute_fusion (some "sad") ["happy"] [] = none := by
  refine compute_fusion_spec.2.2.2.2.2.1 (some "sad") ["happy"] [] "sad"
    (by decide) ?_
  intro m hm
  have heval : normMods ["happy"] ++ normMods ([] : List String) = ["happy"] := by
    decide
  rw [heval] at hm
  have hm' : m = "happy" := by simpa using hm
  subst hm'
  decide

/-! ### Lemmas about `mostCommon1` -/

theorem mem_uniqKeys {y : String} : ∀ {l : List String}, y ∈ uniqKeys l ↔ y ∈ l := by
  intro l
  induction l with
  | nil => simp [uniqKeys]
  | cons x xs ih =>
      by_cases hyx : y = x
      · subst hyx; simp [uniqKeys]
      · simp [uniqKeys, hyx, ih]

theorem pickMax_count (h : List String) :
    ∀ (ks : List String) (best : String × ℕ), best.2 = h.count best.1 →
      (pickMax h best ks).2 = h.count (pickMax h best ks).1 := by
  intro ks
  induction ks with
  | nil => intro best hb; simpa [pickMax] using hb
  | cons k ks ih =>
      intro best hb
      by_cases hk : h.count k > best.2
      · simpa [pickMax, hk] using ih (k, h.count k) rfl
      · simpa [pickMax, hk] using ih best hb

theorem pickMax_ge_best (h : List String) :
    ∀ (ks : List String) (best : String × ℕ), best.2 ≤ (pickMax h best ks).2 := by
  intro ks
  induction ks with
  | nil => intro best; simp [pickMax]
  | cons k ks ih =>
      intro best
      by_cases hk : h.count k > best.2
      · have := ih (k, h.count k)
        simp only [pickMax, if_pos hk]
        exact le_trans (le_of_lt hk) this
      · simpa [pickMax, hk] using ih best

theorem pickMax_ge (h : List String) :
    ∀ (ks : List String) (best : String × ℕ) (k : String), k ∈ ks →
      h.count k ≤ (pickMax h best ks).2 := by
  intro ks
  induction ks with
  | nil => intro best k hk; simp at hk
  | cons k' ks ih =>
      intro best k hk
      rcases List.mem_cons.mp hk with hk | hk
      · subst hk
        by_cases hgt : h.count k > best.2
        · simpa [pickMax, hgt] using pickMax_ge_best h ks (k, h.count k)
        · have hle : h.count k ≤ best.2 := le_of_not_lt hgt
          simp only [pickMax, if_neg hgt]
          exact le_trans hle (pickMax_ge_best h ks best)
      · by_cases hgt : h.count k' > best.2
        · simpa [pickMax, hgt] using ih (k', h.count k') k hk
        · simpa [pickMax, hgt] using ih best k hk

theorem mostCommon1_count {h : List String} (hne : h ≠ []) :
    (mostCommon1 h).2 = h.count (mostCommon1 h).1 := by
  match h, hne with
  | x :: xs, _ =>
      simp only [mostCommon1, uniqKeys]
      exact pickMax_count (x :: xs) _ (x, (x :: xs).count x) rfl

theorem mostCommon1_max {h : List String} {y : String} (hy : y ∈ h) :
    h.count y ≤ (mostCommon1 h).2 := by
  match h, hy with
  | x :: xs, hy =>
      have hyu : y ∈ uniqKeys (x :: xs) := mem_uniqKeys.mpr hy
      simp only [uniqKeys] at hyu
      rcases List.mem_cons.mp hyu with hyx | hyx
      · subst hyx
        simp only [mostCommon1, uniqKeys]
        exact pickMax_ge_best (y :: xs) _ (y, (y :: xs).count y)
      · simp only [mostCommon1, uniqKeys]
        exact pickMax_ge (x :: xs) _ (x, (x :: xs).count x) y hyx

/-- Claim C3: `calculate_mood` returns the unique emotion occurring at least
twice in the history and `"neutral"` when no emotion reaches that count;
in particular `calculate_mood [happy, sad, happy] = "happy"` and
`calculate_mood [happy] = "neutral"`. -/
theorem calculate_mood_spec :
    calculate_mood ["happy", "sad", "happy"] = "happy" ∧
    calculate_mood ["happy"] = "neutral" ∧
    calculate_mood [] = "neutral" ∧
    (∀ (h : List String) (e : String),
      2 ≤ h.count e → (∀ e', e' ≠ e → h.count e' < 2) →
      calculate_mood h = e) ∧
    (∀ h : List String, (∀ e, h.count e < 2) → calculate_mood h = "neutral") := by
  refine ⟨by decide, by decide, by decide, ?_, ?_⟩
  · intro h e h2 huniq
    have he : e ∈ h := List.count_pos_iff.mp (lt_of_lt_of_le (by norm_num) h2)
    have hne : h ≠ [] := List.ne_nil_of_mem he
    have hcnt : (mostCommon1 h).2 = h.count (mostCommon1 h).1 := mostCommon1_count hne
    have hmax : h.count e ≤ (mostCommon1 h).2 := mostCommon1_max he
    have h2' : 2 ≤ (mostCommon1 h).2 := le_trans h2 hmax
    have heq : (mostCommon1 h).1 = e := by
      by_contra hneq
      have := huniq _ hneq
      omega
    simp [calculate_mood, hne, Nat.not_lt.mpr h2', heq]
  · intro h hall
    by_cases hne : h = []
    · simp [calculate_mood, hne]
    · have hcnt : (mostCommon1 h).2 = h.count (mostCommon1 h).1 := mostCommon1_count hne
      have hlt : (mostCommon1 h).2 < 2 := by rw [hcnt]; exact hall _
      simp [calculate_mood, hne, hlt]

/-- Witness for C3: the general unique-majority clause applied to the
spec's own example history. -/
theorem calculate_mood_spec_witness :
    calculate_mood ["happy", "sad", "happy"] = "happy" := by
  refine calculate_mood_spec.2.2.2.1 ["happy", "sad", "happy"] "happy" (by decide) ?_
  intro e' hne
  by_cases hs : e' = "sad" <;>
    simp [List.count_cons, hs, hne, Ne.symm hne]

/-! ## emotional_state.py -/

/-- The `EmotionalState` record — Nova's "heart" (a Python dataclass).  The two
timestamp fields default to `time.time()` in the source; the embedding
takes timestamps as explicit values. -/
structure EmotionalState where
  baseline : String := "curious"
  mood : String := "neutral"
  primary : String := "neutral"
  secondary : List String := []
  history : List String := []
  last_update_ts : ℚ := 0
  fusion : Option String := none
  last_fusion_update : ℚ := 0
deriving DecidableEq, Repr

/-- JSON-like values stored in the dict produced by
`dataclasses.asdict(EmotionalState)`. -/
inductive DVal where
  | vStr (v : String)
  | vNum (v : ℚ)
  | vList (v : List String)
  | vNull
deriving DecidableEq, Repr

/-- Reading `data.get(k, default)` for a string-valued field.  (For dicts in the
image of `to_dict` the stored value always has the right shape; on a
shape mismatch Python would store the foreign value unchanged, which a
typed field cannot represent, so the embedding falls back to the
default there.) -/
def dGetStr (data : List (String × DVal)) (k : String) (d : String) : String :=
  match lookupA data k with
  | some (.vStr v) => v
  | _ => d

/-- Reading `list(data.get(k, []))` for a list-valued field. -/
def dGetList (data : List (String × DVal)) (k : String) : List String :=
  match lookupA data k with
  | some (.vList v) => v
  | _ => []

/-- Reading `float(data.get(k, time.time()))` for a numeric field; `now` stands
for the `time.time()` default. -/
def dGetNum (data : List (String × DVal)) (k : String) (now : ℚ) : ℚ :=
  match lookupA data k with
  | some (.vNum v) => v
  | _ => now

/-- From `EmotionalState.to_dict`: `dataclasses.asdict`, i.e. every field in
declaration order. -/
def EmotionalState.to_dict (s : EmotionalState) : List (String × DVal) :=
  [("baseline", .vStr s.baseline),
   ("mood", .vStr s.mood),
   ("primary", .vStr s.primary),
   ("secondary", .vList s.secondary),
   ("history", .vList s.history),
   ("last_update_ts", .vNum s.last_update_ts),
   ("fusion", match s.fusion with | some f => .vStr f | none => .vNull),
   ("last_fusion_update", .vNum s.last_fusion_update)]

/-- From `EmotionalState.from_dict`: restore a state from a dict, missing
fields falling back to defaults (`now` models `time.time()`). -/
def EmotionalState.from_dict (data : List (String × DVal)) (now : ℚ) :
    EmotionalState where
  baseline := dGetStr data "baseline" "curious"
  mood := dGetStr data "mood" "neutral"
  primary := dGetStr data "primary" "neutral"
  secondary := dGetList data "secondary"
  history := dGetList data "history"
  last_update_ts := dGetNum data "last_update_ts" now
  fusion :=
    match lookupA data "fusion" with
    | some (.vStr v) => some v
    | _ => none
  last_fusion_update := dGetNum data "last_fusion_update" now

/-- From `EmotionalState.push_emotion`: register a new immediate emotion,
append it to the bounded history (cap `max_history`, oldest dropped) and
stamp the update time. -/
def EmotionalState.push_emotion (s : EmotionalState) (emotion : String)
    (ts : ℚ) (max_history : ℕ := 20) : EmotionalState :=
  if emotion = "" then s
  else
    let h := s.history ++ [emotion]
    let h := if max_history < h.length then h.drop (h.length - max_history) else h
    { s with primary := emotion, history := h, last_update_ts := ts }

/-- Claim C10: serializing an `EmotionalState` with `to_dict` and restoring
it with `from_dict` yields the original state field for field; no field
is excluded from serialization. -/
theorem EmotionalState.roundtrip (s : EmotionalState) (now : ℚ) :
    EmotionalState.from_dict (EmotionalState.to_dict s) now = s := by
  cases s with
  | mk baseline mood primary secondary history last_update_ts fusion lfu =>
      cases fusion <;> rfl

/-! ## emotion_memory_map.py

The persistent stimulus → emotion reinforcement map.  Each map entry is a
JSON dict with keys `"emotion"`, `"reinforcement"`, `"count"`,
`"last_seen"`; the map itself is a dict keyed by the (lowercased)
stimulus text.  Python dicts are modelled as association lists, and
`time.time()` as an explicit `ts` argument. -/

/-- One stored map entry (a Python dict). -/
abbrev MapEntry := List (String × DVal)

/-- The persistent emotional memory map. -/
abbrev EmotionMap := List (String × MapEntry)

/-- From `emotion_memory_map.get_emotion`: stored emotion for a stimulus, or
`none` when the stimulus is unknown (or its entry is an empty — falsy —
dict). -/
def get_emotion (memory_map : EmotionMap) (stimulus : String) :
    Option String :=
  match lookupA memory_map (pyLower stimulus) with
  | some entry =>
      if entry = [] then none else some (dGetStr entry "emotion" "neutral")
  | none => none

/-- From `emotion_memory_map.update_emotion`: update or reinforce the emotion
stored for a stimulus.  The running `"reinforcement"` counter moves by
`reinforce`; crossing `-2` with a negative step flips the stored emotion
to `"afraid"`, crossing `+2` with a positive step flips it to
`new_emotion`.  (Existing entries always carry the numeric keys, so the
`0` fall-backs of the dict reads are never exercised on real data.) -/
def update_emotion (memory_map : EmotionMap) (stimulus new_emotion : String)
    (reinforce : ℚ) (ts : ℚ) : EmotionMap :=
  let stim := pyLower stimulus
  let entry := (lookupA memory_map stim).getD
    [("emotion", .vStr new_emotion), ("reinforcement", .vNum 0),
     ("count", .vNum 0), ("last_seen", .vNum ts)]
  let entry := setA entry "reinforcement"
    (.vNum (dGetNum entry "reinforcement" 0 + reinforce))
  let entry := setA entry "count" (.vNum (dGetNum entry "count" 0 + 1))
  let entry := setA entry "last_seen" (.vNum ts)
  let entry :=
    if reinforce < 0 ∧ dGetNum entry "reinforcement" 0 ≤ -2 then
      setA entry "emotion" (.vStr "afraid")
    else if reinforce > 0 ∧ 2 ≤ dGetNum entry "reinforcement" 0 then
      setA entry "emotion" (.vStr new_emotion)
    else entry
  setA memory_map stim entry

/-! ## emotion_engine.py -/

/-- The fixed `EMOTION_KEYWORDS` emotion → keyword table, in
source-declared (dict-insertion) order. -/
def EMOTION_KEYWORDS : List (String × List String) :=
  [("happy", ["smile", "orange", "fun", "sun", "good"]),
   ("nostalgic", ["drawing", "duck", "memory", "paper", "old", "rain"]),
   ("curious", ["what", "why", "how", "unknown", "new", "mystery"]),
   ("excited", ["game", "win", "yay", "party", "start"]),
   ("bored", ["nothing", "wait", "blank", "idle"]),
   ("afraid", ["glass", "sharp", "danger", "hurt", "pain", "blood"]),
   ("sad", ["broken", "lost", "goodbye", "crack", "forgot", "gone"]),
   ("neutral", [])]

/-- From `emotion_engine.is_avoided`: avoidance fires when the map entry for
the stimulus carries an `"afraid"` key at or below the threshold
(default `-2`); a missing `"afraid"` key reads as `0`. -/
def is_avoided (map_data : EmotionMap) (stimulus : String)
    (threshold : ℚ := -2) : Bool :=
  match lookupA map_data stimulus with
  | some entry => decide (dGetNum entry "afraid" 0 ≤ threshold)
  | none => false

/-- Number of table keywords occurring as substrings of the stimulus. -/
def keywordScore (stimulus : String) (keywords : List String) : ℚ :=
  ((keywords.filter (fun w => strContains stimulus w)).length : ℚ)

/-- The keyword score dict, with the `+0.5` continuity bonus already
folded onto the emotion equal to the current `state.primary` (the bonus
does not change dict order because the key already exists). -/
def scoresOf (stimulus : String) (statePrimary : String) :
    List (String × ℚ) :=
  EMOTION_KEYWORDS.map (fun p =>
    (p.1, keywordScore stimulus p.2 +
      if p.1 = statePrimary then (1 / 2 : ℚ) else 0))

/-- Python `max(scores, key=scores.get)`: running maximum over the dict
iteration order, first key winning ties. -/
def argmaxFirst (l : List (String × ℚ)) : Option (String × ℚ) :=
  match l with
  | [] => none
  | x :: xs => some (xs.foldl (fun best p => if p.2 > best.2 then p else best) x)

/-- The `SECONDARY_MAP` table of secondary emotional shades per emotion. -/
def SECONDARY_MAP : List (String × List String) :=
  [("happy", ["curious", "excited"]),
   ("nostalgic", ["sad", "warm"]),
   ("curious", ["neutral", "hopeful"]),
   ("afraid", ["alert", "cautious"]),
   ("sad", ["nostalgic", "tired"]),
   ("bored", ["blank", "restless"]),
   ("excited", ["happy", "eager"]),
   ("neutral", [])]

/-- Reading `SECONDARY_MAP.get(k, [])`. -/
def secondaryGet (k : String) : List String :=
  (lookupA SECONDARY_MAP k).getD []

/-- From `emotion_engine.update_emotional_state`: compute the emotional
reaction to a stimulus.  The module-global `emotion_map` becomes an
explicit argument and the updated map is returned alongside the state;
`tieRand` models `random.choice(["curious", "neutral"])` on a total-zero
keyword score (`true` picks `"curious"`), `ts` models `time.time()`.
Python's set-union of secondary shades is iteration-order-unspecified;
the embedding concretizes it to first-occurrence order of the three
updates. -/
def update_emotional_state (state : EmotionalState)
    (heard_text : String) (seen_text : String := "")
    (emotion_map : EmotionMap) (tieRand : Bool) (ts : ℚ) :
    EmotionalState × EmotionMap :=
  let stimulus :=
    pyStrip (pyLower (pyStrip heard_text) ++ " " ++ pyLower (pyStrip seen_text))
  -- 1) Fear avoidance
  if is_avoided emotion_map stimulus then
    let st := state.push_emotion "afraid" ts
    ({ st with mood := "afraid", secondary := ["alert", "cautious"] },
     emotion_map)
  else
    -- 2) Recall previous association / 3) keyword scoring
    let (primary, emotion_map') :=
      match get_emotion emotion_map stimulus with
      | some remembered =>
          (remembered, update_emotion emotion_map stimulus remembered 1 ts)
      | none =>
          match argmaxFirst (scoresOf stimulus state.primary) with
          | some (best, bestScore) =>
              let primary :=
                if bestScore = 0 then
                  if tieRand then "curious" else "neutral"
                else best
              (primary, update_emotion emotion_map stimulus primary 0 ts)
          | none => ("neutral", emotion_map)  -- unreachable: table nonempty
    -- 4) primary / 5) mood
    let st := state.push_emotion primary ts
    let st := { st with mood := calculate_mood st.history }
    -- 6) secondary shades
    let combined := uniqKeys
      (secondaryGet primary ++ secondaryGet st.mood ++ secondaryGet st.baseline)
    let st :=
      { st with secondary :=
          combined.filter (fun e => e ≠ primary ∧ e ≠ st.mood) }
    -- 7) fusion layer (update_fusion with spikes = None)
    let st :=
      { st with fusion := compute_fusion (some st.primary) st.secondary [],
                last_fusion_update := ts }
    (st, emotion_map')

/-- A map entry driven to the fear threshold by `update_emotion`:
created neutral-reinforcement, then reinforced `-1` twice, so its stored
emotion has flipped to `"afraid"` with reinforcement `-2`. -/
def mapAfterFear : EmotionMap :=
  update_emotion
    (update_emotion (update_emotion [] "x" "sad" 0 0) "x" "sad" (-1) 1)
    "x" "sad" (-1) 2

/-- Claim C2, failing-input evaluation.  After `update_emotion` has
driven the reinforcement counter of stimulus `"x"` to `-2` and flipped
its stored emotion to `"afraid"`, `is_avoided` is still `false` (it
reads the nonexistent `"afraid"` key of the entry, not the
`"reinforcement"` counter), and `update_emotional_state` classifies
`"x"` through the remembered-association path: mood stays `"neutral"`
instead of the avoidance value `"afraid"`, and the reinforcement
counter is incremented back to `-1` rather than being left untouched by
a short-circuit. -/
theorem update_emotional_state_fear_divergence :
    dGetStr ((lookupA mapAfterFear "x").getD []) "emotion" "" = "afraid" ∧
    dGetNum ((lookupA mapAfterFear "x").getD []) "reinforcement" 99 = -2 ∧
    is_avoided mapAfterFear "x" = false ∧
    (update_emotional_state {} "x" "" mapAfterFear false 3).1.primary
      = "afraid" ∧
    (update_emotional_state {} "x" "" mapAfterFear false 3).1.mood
      = "neutral" ∧
    dGetNum ((lookupA (update_emotional_state {} "x" "" mapAfterFear false 3).2
        "x").getD []) "reinforcement" 99 = -1 := by
  with_unfolding_all decide

/-! ## intent_builder.py

The snapshot dataclasses and the `IntentBuilder` decision core.  (As an
aside, the Python `IntentContext` and `Intent` dataclasses declare
non-default fields after defaulted ones; the structures below keep the
source's field sets and defaults where they are well formed.) -/

/-- Helper `clamp` from intent_builder.py. -/
def clamp (v : ℚ) (lo : ℚ := 0) (hi : ℚ := 1) : ℚ :=
  max lo (min hi v)

/-- Emotion snapshot handed to the intent builder. -/
structure EmotionSnapshot where
  primary : Option String := none
  fusion : Option String := none
  intensity : ℚ := 0
  stability : ℚ := 0.5
deriving DecidableEq, Repr

/-- Mood snapshot handed to the intent builder. -/
structure MoodSnapshot where
  label : String := "neutral"
  valence : ℚ := 0.5
  energy : ℚ := 0.5
deriving DecidableEq, Repr

/-- Needs snapshot declared in intent_builder.py — note it stores only
four need fields (no affection). -/
structure NeedsSnapshot where
  hunger : ℚ := 0
  thirst : ℚ := 0
  fatigue : ℚ := 0
  bladder : ℚ := 0
deriving DecidableEq, Repr

/-- Derived pressure of the intent-builder needs snapshot:
`max(self.hunger, self.thirst, self.fatigue, self.bladder)`. -/
def NeedsSnapshot.pressure (n : NeedsSnapshot) : ℚ :=
  max (max (max n.hunger n.thirst) n.fatigue) n.bladder

/-- Relationship snapshot handed to the intent builder. -/
structure RelationshipSnapshot where
  label : String := "stranger"
  level : ℤ := 0
  trust : ℚ := 0.2
  safety : ℚ := 0.2
  attachment : ℚ := 0
deriving DecidableEq, Repr

/-- One remembered snippet handed to the intent builder. -/
structure MemorySnippet where
  text : String
  weight : ℚ := 1
  kind : String := "recent"
deriving DecidableEq, Repr

/-- Everything Nova's brain knows just before speaking
(`IntentContext`). -/
structure IntentContext where
  user_message : String
  emotion : EmotionSnapshot := {}
  mood : MoodSnapshot := {}
  needs : NeedsSnapshot := {}
  relationship : RelationshipSnapshot := {}
  maturity : ℚ := 0.5
  persona_brief : String := ""
  recent_memory : List MemorySnippet := []
  episodic_memory : List MemorySnippet := []
  allow_nsfw : Bool := false
  is_direct_question : Bool := true
  question_type : String := "generic"
  affection : ℚ
  arousal : ℚ
  comfort : ℚ
  fluster : ℚ
  nsfw_readiness : ℚ
deriving DecidableEq, Repr

/-- The `Intent` handed to the LLM layer (with the `nsfw_ready` flag
that `build_intent` sets and reads). -/
structure Intent where
  emotion_label : String
  fusion_label : Option String
  mood_label : String
  maturity : ℚ
  relationship_label : String
  openness : ℚ
  vulnerability : ℚ
  playfulness : ℚ
  hesitation : ℚ := 0
  speaking_mode : String
  tone_style : String
  content_goal : String
  memory_hint : Option String := none
  mention_feeling_explicitly : Bool := true
  mention_needs_subtly : Bool := false
  ask_back : Bool := false
  nsfw_ready : Bool := false
deriving DecidableEq, Repr

/-- Python truthiness fallback `opt or default` for an optional string. -/
def pyOrStr (opt : Option String) (d : String) : String :=
  match opt with
  | some s => if s = "" then d else s
  | none => d

/-- From `IntentBuilder._calc_openness`: how open/expressive she feels
like being. -/
def _calc_openness (ctx : IntentContext) : ℚ :=
  let base := ctx.relationship.trust * 0.5 + ctx.relationship.safety * 0.3
  let base := base + ctx.relationship.attachment * 0.2
  let base :=
    if ctx.maturity < 0.3 then base + 0.05
    else if ctx.maturity > 0.7 then base + 0.1
    else base
  let base :=
    if ctx.mood.valence < 0.3 ∧ ctx.relationship.trust < 0.5 then base - 0.2
    else base
  let base := base + ctx.emotion.intensity * 0.15
  let base := base - ctx.needs.pressure * 0.15
  clamp base

/-- From `IntentBuilder._calc_vulnerability`: how much of her inner
feelings she is willing to show. -/
def _calc_vulnerability (ctx : IntentContext) (openness : ℚ) : ℚ :=
  let v := openness
  let v :=
    if ctx.emotion.fusion ∈ [some "insecure", some "ashamed", some "guilty"]
    then v - 0.2 else v
  let v :=
    if ctx.mood.label ∈ ["warm", "soft", "affectionate"]
    then v + ctx.relationship.attachment * 0.3 else v
  let v := v + (ctx.maturity - 0.5) * 0.3
  let v :=
    if ctx.emotion.primary ∈ [some "hurt", some "sad"] ∧
        ctx.relationship.trust < 0.4
    then v - 0.25 else v
  clamp v

/-- From `IntentBuilder._calc_playfulness`: how playful vs serious the
answer should feel. -/
def _calc_playfulness (ctx : IntentContext) : ℚ :=
  let p := (0 : ℚ)
  let p := p + ctx.mood.valence * 0.4
  let p := p + ctx.mood.energy * 0.3
  let p := p + ctx.relationship.attachment * 0.2
  let p :=
    if ctx.emotion.intensity > 0.6 ∧ ctx.mood.valence < 0.4 then p - 0.4
    else p
  clamp p

/-- From `IntentBuilder._decide_tone_style`: priority-ordered tone
label selection. -/
def _decide_tone_style (ctx : IntentContext) (openness vulnerability : ℚ) :
    String :=
  let tone := "calm"
  let tone := if ctx.emotion.primary ∈ [some "sad", some "hurt"] then "soft" else tone
  let tone :=
    if ctx.emotion.primary ∈ [some "anxious", some "nervous"] then "hesitant"
    else tone
  let tone :=
    if ctx.emotion.primary ∈ [some "annoyed", some "frustrated"] then "flat"
    else tone
  let tone :=
    if (ctx.emotion.fusion ∈ [some "insecure", some "jealous"] ∨
        ctx.emotion.primary ∈ [some "hurt", some "annoyed"]) ∧
        (ctx.maturity < 0.6 ∧ ctx.relationship.trust > 0.4)
    then "pouty" else tone
  let tone :=
    if ctx.mood.label ∈ ["warm", "soft", "affectionate"] ∧
        ctx.relationship.attachment > 0.4
    then "gentle" else tone
  let tone :=
    if _calc_playfulness ctx > 0.6 ∧ tone ∉ ["pouty", "flat"] then "light"
    else tone
  tone

/-- From `IntentBuilder._decide_speaking_mode`: returns
`(mode, content_goal, ask_back)`. -/
def _decide_speaking_mode (ctx : IntentContext)
    (openness vulnerability : ℚ) : String × String × Bool :=
  let r :=
    if ctx.question_type = "how_are_you" ∨ ctx.question_type = "emotional_check"
    then
      if openness > 0.4 ∧ ctx.relationship.trust > 0.3 then
        ("answer_and_ask", "describe state and gently ask how the user is", true)
      else
        ("answer", "briefly describe her current state", false)
    else if ctx.question_type = "what_if" then
      ("reflective",
       "imagine what she would feel and do in that scenario, based on her personality and history",
       false)
    else if ctx.question_type = "preference" then
      ("answer", "state her preference honestly, with a bit of explanation", false)
    else if openness > 0.5 ∧ ctx.emotion.intensity > 0.3 then
      ("answer_and_ask", "answer and show curiosity about the user\x27s side", true)
    else
      ("answer", "answer the user\x27s message naturally", false)
  if vulnerability < 0.2 ∧ r.1 = "reflective" then
    ("light", "give a simple, surface-level response without going deep", r.2.2)
  else r

/-- Python slice `s[:n]`. -/
def pyTake (s : String) (n : ℕ) : String :=
  String.mk (s.toList.take n)

/-- Stable descending insertion by snippet weight (the behaviour of
Python's stable `sorted(key=weight, reverse=True)`). -/
def sortInsert (m : MemorySnippet) : List MemorySnippet → List MemorySnippet
  | [] => [m]
  | x :: xs => if m.weight ≥ x.weight then m :: x :: xs else x :: sortInsert m xs

/-- Stable descending sort by snippet weight. -/
def sortByWeightDesc (l : List MemorySnippet) : List MemorySnippet :=
  l.foldr sortInsert []

/-- From `IntentBuilder._pick_memory_hint`: highest-weight snippet of
recent+episodic memory, truncated to 200 characters, only when
vulnerability is at least 0.4. -/
def _pick_memory_hint (ctx : IntentContext) (vulnerability : ℚ) :
    Option String :=
  if vulnerability < 0.4 then none
  else
    match sortByWeightDesc (ctx.recent_memory ++ ctx.episodic_memory) with
    | [] => none
    | top :: _ => some (pyTake top.text 200)

/-- From `IntentBuilder.build_intent`: the decision core, including the
post-construction emotional-shaping passes and the final NSFW-readiness
override. -/
def build_intent (ctx : IntentContext) : Intent :=
  let openness := _calc_openness ctx
  let vulnerability := _calc_vulnerability ctx openness
  let playfulness := _calc_playfulness ctx
  let tone_style := _decide_tone_style ctx openness vulnerability
  let msm := _decide_speaking_mode ctx openness vulnerability
  let memory_hint := _pick_memory_hint ctx vulnerability
  let mention_feeling :=
    if ¬ (ctx.question_type = "how_are_you" ∨
          ctx.question_type = "emotional_check") then
      decide (vulnerability > 0.4 ∧ ctx.emotion.intensity > 0.2)
    else true
  let mention_needs := decide (ctx.needs.pressure > 0.5 ∧ vulnerability > 0.3)
  let nsfw_ready := decide (ctx.nsfw_readiness > 0.5)
  let intent : Intent :=
    { emotion_label := pyOrStr ctx.emotion.primary "neutral"
      fusion_label := ctx.emotion.fusion
      mood_label := ctx.mood.label
      maturity := ctx.maturity
      relationship_label := ctx.relationship.label
      openness := openness
      vulnerability := vulnerability
      playfulness := playfulness
      speaking_mode := msm.1
      tone_style := tone_style
      content_goal := msm.2.1
      memory_hint := memory_hint
      mention_feeling_explicitly := mention_feeling
      mention_needs_subtly := mention_needs
      nsfw_ready := nsfw_ready
      ask_back := msm.2.2 }
  -- Emotional shaping (note: no clamp after these adjustments)
  let intent :=
    if ctx.nsfw_readiness > 0.6 then
      { intent with vulnerability := intent.vulnerability + 0.1,
                    playfulness := intent.playfulness + 0.1 }
    else intent
  let intent :=
    if ctx.fluster > 0.5 then
      { intent with hesitation := intent.hesitation + 0.15 }
    else intent
  let intent :=
    if intent.nsfw_ready then
      let intent :=
        { intent with vulnerability := intent.vulnerability + 0.05,
                      playfulness := intent.playfulness + 0.05 }
      if intent.speaking_mode = "answer" then
        { intent with speaking_mode := "soft" }
      else intent
    else intent
  -- Final NSFW readiness override
  { intent with nsfw_ready := decide (ctx.nsfw_readiness > 0.5) }

/-- A context with a warm, trusting relationship, maximal mood valence
and emotional intensity, and NSFW readiness 0.7: every trait clamps to
at most 1 at construction, and the shaping passes then push
vulnerability and playfulness past 1. -/
def ctxOverflow : IntentContext where
  user_message := "hi"
  emotion := { primary := some "happy", intensity := 1 }
  mood := { label := "neutral", valence := 1, energy := 1 }
  relationship := { label := "partner", level := 7, trust := 1, safety := 1,
                    attachment := 1 }
  maturity := 0.8
  affection := 0.5
  arousal := 0
  comfort := 0.5
  fluster := 0
  nsfw_readiness := 0.7

/-- Claim C1, failing-input evaluation.  `build_intent` does not clamp
the post-construction shaping adjustments: on `ctxOverflow` the
vulnerability trait ends at `1.15` and the playfulness trait at `1.05`,
both strictly above the `[0, 1]` range the claim asserts. -/
theorem build_intent_trait_overflow :
    (build_intent ctxOverflow).vulnerability = 1.15 ∧
    (build_intent ctxOverflow).playfulness = 1.05 ∧
    ¬ (build_intent ctxOverflow).vulnerability ≤ 1 ∧
    ¬ (build_intent ctxOverflow).playfulness ≤ 1 := by
  with_unfolding_all decide

/-! ## needs_engine.py (snapshot type) and the BrainLoop snapshot copy -/

/-- The needs engine's own snapshot (`NeedSnapshot`), which stores all
five need fields including affection. -/
structure NeedSnapshot where
  hunger : ℚ := 0
  thirst : ℚ := 0
  fatigue : ℚ := 0
  bladder : ℚ := 0
  affection : ℚ := 0
deriving DecidableEq, Repr

/-- Derived pressure of the needs engine's snapshot:
`max(self.hunger, self.thirst, self.fatigue, self.bladder, self.affection)`. -/
def NeedSnapshot.pressure (n : NeedSnapshot) : ℚ :=
  max (max (max (max n.hunger n.thirst) n.fatigue) n.bladder) n.affection

/-- The snapshot copy made in `BrainLoop.process_turn` (step 8): the
intent-builder `NeedsSnapshot` is built from the engine's `NeedSnapshot`
hunger/thirst/fatigue/bladder fields only — affection is dropped. -/
def buildNeedsSnap (ns : NeedSnapshot) : NeedsSnapshot where
  hunger := ns.hunger
  thirst := ns.thirst
  fatigue := ns.fatigue
  bladder := ns.bladder

/-- A needs state whose affection is the unique dominant need. -/
def needsAffectionHigh : NeedSnapshot where
  hunger := 0.1
  thirst := 0.1
  fatigue := 0.1
  bladder := 0.1
  affection := 0.9

/-- Counterexample for C7: the snapshot passed into the IntentBuilder
does not carry affection, so its derived pressure (0.1) is not the
maximum of all five stored need fields of the originating engine state
(0.9); the claim fails for that snapshot type. -/
theorem intent_needs_pressure_ignores_affection :
    NeedSnapshot.pressure needsAffectionHigh = 0.9 ∧
    NeedsSnapshot.pressure (buildNeedsSnap needsAffectionHigh) = 0.1 ∧
    NeedsSnapshot.pressure (buildNeedsSnap needsAffectionHigh) ≠
      max (max (max (max needsAffectionHigh.hunger needsAffectionHigh.thirst)
        needsAffectionHigh.fatigue) needsAffectionHigh.bladder)
        needsAffectionHigh.affection := by
  with_unfolding_all decide

/-- Claim C7, amended: each snapshot type's derived `pressure` is the
maximum of the need fields that snapshot actually stores — all five
(including affection) for the needs engine's `NeedSnapshot`, but only
hunger/thirst/fatigue/bladder for the IntentBuilder's `NeedsSnapshot`,
whose BrainLoop construction copies those four fields and drops
affection; pressure is derived on demand, not stored, in both cases. -/
theorem pressure_is_max_of_stored_fields :
    (∀ ns : NeedSnapshot,
      (ns.pressure = ns.hunger ∨ ns.pressure = ns.thirst ∨
       ns.pressure = ns.fatigue ∨ ns.pressure = ns.bladder ∨
       ns.pressure = ns.affection) ∧
      ns.hunger ≤ ns.pressure ∧ ns.thirst ≤ ns.pressure ∧
      ns.fatigue ≤ ns.pressure ∧ ns.bladder ≤ ns.pressure ∧
      ns.affection ≤ ns.pressure) ∧
    (∀ s : NeedsSnapshot,
      (s.pressure = s.hunger ∨ s.pressure = s.thirst ∨
       s.pressure = s.fatigue ∨ s.pressure = s.bladder) ∧
      s.hunger ≤ s.pressure ∧ s.thirst ≤ s.pressure ∧
      s.fatigue ≤ s.pressure ∧ s.bladder ≤ s.pressure) ∧
    (∀ ns : NeedSnapshot,
      (buildNeedsSnap ns).hunger = ns.hunger ∧
      (buildNeedsSnap ns).thirst = ns.thirst ∧
      (buildNeedsSnap ns).fatigue = ns.fatigue ∧
      (buildNeedsSnap ns).bladder = ns.bladder) := by
  refine ⟨?_, ?_, ?_⟩
  · intro ns
    refine ⟨?_, ?_, ?_, ?_, ?_, ?_⟩
    · simp only [NeedSnapshot.pressure]
      rcases max_choice (max (max (max ns.hunger ns.thirst) ns.fatigue)
          ns.bladder) ns.affection with h4 | h4
      · rw [h4]
        rcases max_choice (max (max ns.hunger ns.thirst) ns.fatigue)
            ns.bladder with h3 | h3
        · rw [h3]
          rcases max_choice (max ns.hunger ns.thirst) ns.fatigue with h2 | h2
          · rw [h2]
            rcases max_choice ns.hunger ns.thirst with h1 | h1
            · exact Or.inl h1
            · exact Or.inr (Or.inl h1)
          · exact Or.inr (Or.inr (Or.inl h2))
        · exact Or.inr (Or.inr (Or.inr (Or.inl h3)))
      · exact Or.inr (Or.inr (Or.inr (Or.inr h4)))
    all_goals simp [NeedSnapshot.pressure, le_max_iff]
  · intro s
    refine ⟨?_, ?_, ?_, ?_, ?_⟩
    · simp only [NeedsSnapshot.pressure]
      rcases max_choice (max (max s.hunger s.thirst) s.fatigue)
          s.bladder with h3 | h3
      · rw [h3]
        rcases max_choice (max s.hunger s.thirst) s.fatigue with h2 | h2
        · rw [h2]
          rcases max_choice s.hunger s.thirst with h1 | h1
          · exact Or.inl h1
          · exact Or.inr (Or.inl h1)
        · exact Or.inr (Or.inr (Or.inl h2))
      · exact Or.inr (Or.inr (Or.inr h3))
    all_goals simp [NeedsSnapshot.pressure, le_max_iff]
  · intro ns
    exact ⟨rfl, rfl, rfl, rfl⟩

/-! ## memory_consolidation.py -/

/-- A scored, promoted memory record (`ConsolidatedMemory`). -/
structure ConsolidatedMemory where
  text : String
  emotional_weight : ℚ
  relationship_weight : ℚ
  novelty : ℚ
  overall_strength : ℚ
  turns_ago : ℤ := 0
deriving DecidableEq, Repr

/-- The slice of `NovaState` read by the consolidation engine.  The
`affection`/`arousal`/`fluster` attributes are probed with `hasattr` in
the source (and are in fact absent from `NovaState`), so they are
optional here: `none` models an absent attribute, which falls back to
the source's defaults `0.3`/`0.0`/`0.0`. -/
structure MCState where
  recent_memory : List MemorySnippet
  episodic_memory : List ConsolidatedMemory
  emotion : EmotionSnapshot
  relationship : RelationshipSnapshot
  affection : Option ℚ := none
  arousal : Option ℚ := none
  fluster : Option ℚ := none
deriving DecidableEq, Repr

/-- From `MemoryConsolidationEngine._score_memory`: score one
short-term record; `r` models the `random.uniform(0.1, 0.4)` novelty
baseline.  Records scoring below the 0.15 floor are discarded
(`none`). -/
def _score_memory (mem : MemorySnippet) (nova_state : MCState) (r : ℚ) :
    Option ConsolidatedMemory :=
  let text := pyLower mem.text
  let emotional := nova_state.emotion.intensity
  let relationship := nova_state.relationship.trust
  let affection := nova_state.affection.getD 0.3
  let arousal := nova_state.arousal.getD 0
  let fluster := nova_state.fluster.getD 0
  let novelty := r
  let novelty := if 40 < text.length then novelty + 0.1 else novelty
  let emotional_weight := emotional * 0.6 + fluster * 0.2 + arousal * 0.2
  let relationship_weight :=
    relationship * 0.5 + affection * 0.3 +
    (if strContains text "thank" then (1 : ℚ) else 0) * 0.1 +
    (if strContains text "love" then (1 : ℚ) else 0) * 0.2
  let strength :=
    emotional_weight * 0.4 + relationship_weight * 0.4 + novelty * 0.2
  if strength < 0.15 then none
  else
    some { text := mem.text
           emotional_weight := emotional_weight
           relationship_weight := relationship_weight
           novelty := novelty
           overall_strength := strength }

/-- The per-record body of the promotion loop in `consolidate`: keep a
scored record only when its overall strength is strictly above 0.35. -/
def promote_one (nova_state : MCState) (mem : MemorySnippet) (r : ℚ) :
    Option ConsolidatedMemory :=
  match _score_memory mem nova_state r with
  | some score =>
      if score.overall_strength > 0.35 then some score else none
  | none => none

/-- The `new_episodic` list built by `consolidate`: one randomness draw
per short-term record (`rs`, zipped positionally). -/
def new_episodic (nova_state : MCState) (rs : List ℚ) :
    List ConsolidatedMemory :=
  (nova_state.recent_memory.zip rs).filterMap
    (fun p => promote_one nova_state p.1 p.2)

/-- The per-entry mutation of `_decay_episodic`: age by one tick and
subtract the base decay rate plus the age-proportional term. -/
def decay_one (mem : ConsolidatedMemory) : ConsolidatedMemory :=
  let t := mem.turns_ago + 1
  let decay := 0.01 + (t : ℚ) * 0.0005
  { mem with turns_ago := t, overall_strength := mem.overall_strength - decay }

/-- From `MemoryConsolidationEngine._decay_episodic`: decay every
episodic entry and keep only those whose new strength stays strictly
above the 0.05 survival floor. -/
def _decay_episodic (l : List ConsolidatedMemory) : List ConsolidatedMemory :=
  l.filterMap (fun mem =>
    let m := decay_one mem
    if m.overall_strength > 0.05 then some m else none)

/-- From `MemoryConsolidationEngine.consolidate`: promote qualifying
short-term records into episodic memory, decay the (now extended)
episodic store, and clear the short-term buffer. -/
def consolidate (nova_state : MCState) (rs : List ℚ) : MCState :=
  { nova_state with
    episodic_memory :=
      _decay_episodic (nova_state.episodic_memory ++ new_episodic nova_state rs)
    recent_memory := [] }

/-- Claim C5: memory promotion is threshold-exact.  A record scored
exactly 0.35 is not promoted (strict greater-than), any record scored
strictly above 0.35 is promoted, and `_score_memory` never returns a
record below the 0.15 floor (those are discarded). -/
theorem consolidate_promotion_threshold :
    ∀ (st : MCState) (m : MemorySnippet) (r : ℚ),
      (∀ s, _score_memory m st r = some s → s.overall_strength = 0.35 →
        promote_one st m r = none) ∧
      (∀ s, _score_memory m st r = some s → 0.35 < s.overall_strength →
        promote_one st m r = some s) ∧
      (∀ s, _score_memory m st r = some s → 0.15 ≤ s.overall_strength) := by
  intro st m r
  refine ⟨?_, ?_, ?_⟩
  · intro s hs h35
    have hn : ¬ s.overall_strength > 0.35 := by rw [h35]; exact lt_irrefl _
    unfold promote_one
    rw [hs]
    show (if s.overall_strength > 0.35 then some s else none) = none
    rw [if_neg hn]
  · intro s hs h35
    unfold promote_one
    rw [hs]
    show (if s.overall_strength > 0.35 then some s else none) = some s
    rw [if_pos h35]
  · intro s hs
    unfold _score_memory at hs
    dsimp only at hs
    rw [ite_eq_iff] at hs
    rcases hs with ⟨hc, habs⟩ | ⟨hc, heq⟩
    · exact absurd habs (by simp)
    · injection heq with heq
      rw [← heq]
      exact not_lt.mp hc

/-- Witness for C5: a concrete trusting, intense state and a grateful
message score 0.656, strictly above the promotion threshold, and the
promotion clause yields exactly that consolidated record. -/
theorem consolidate_promotion_threshold_witness :
    promote_one
      { recent_memory := [], episodic_memory := [],
        emotion := { intensity := 1 }, relationship := { trust := 1 } }
      { text := "thank you love" } (0.3 : ℚ) =
    some { text := "thank you love", emotional_weight := 0.6,
           relationship_weight := 0.89, novelty := 0.3,
           overall_strength := 0.656 } := by
  refine (consolidate_promotion_threshold
      { recent_memory := [], episodic_memory := [],
        emotion := { intensity := 1 }, relationship := { trust := 1 } }
      { text := "thank you love" } (0.3 : ℚ)).2.1
    _ ?_ ?_
  · with_unfolding_all decide
  · norm_num

/-- Claim C6: one decay pass increments each entry's age by one tick
and subtracts a positive amount (base rate plus age-proportional term),
so for entries with nonnegative age the strength does not increase; and
every entry surviving `_decay_episodic` has strength strictly above the
0.05 survival floor. -/
theorem decay_episodic_monotone :
    (∀ m : ConsolidatedMemory, (decay_one m).turns_ago = m.turns_ago + 1) ∧
    (∀ m : ConsolidatedMemory, 0 ≤ m.turns_ago →
      (decay_one m).overall_strength ≤ m.overall_strength) ∧
    (∀ (l : List ConsolidatedMemory) (m : ConsolidatedMemory),
      m ∈ _decay_episodic l → 0.05 < m.overall_strength) := by
  refine ⟨fun m => rfl, ?_, ?_⟩
  · intro m hm
    simp only [decay_one]
    have hcast : (1 : ℚ) ≤ ((m.turns_ago + 1 : ℤ) : ℚ) := by
      have : (1 : ℤ) ≤ m.turns_ago + 1 := by omega
      exact_mod_cast this
    nlinarith [hcast]
  · intro l m hm
    simp only [_decay_episodic, List.mem_filterMap] at hm
    obtain ⟨a, _, ha⟩ := hm
    by_cases h : (decay_one a).overall_strength > 0.05
    · simp only [h, if_pos] at ha
      injection ha with ha
      rw [← ha]
      exact h
    · simp [h] at ha

/-- Witness for C6: the monotonicity clause applied to a concrete
fresh entry of strength 0.5. -/
theorem decay_episodic_monotone_witness :
    (decay_one { text := "t", emotional_weight := 0, relationship_weight := 0,
                 novelty := 0, overall_strength := 0.5 }).overall_strength ≤
      (0.5 : ℚ) := by
  exact decay_episodic_monotone.2.1
    { text := "t", emotional_weight := 0, relationship_weight := 0,
      novelty := 0, overall_strength := 0.5 } (by decide)

/-! ## initiative_engine.py and the BrainLoop initiative gate -/

/-- An initiative proposal (`InitiativeIntent`). -/
structure InitiativeIntent where
  content : String
  priority : ℚ := 0.5
deriving DecidableEq, Repr

/-- The slice of `NovaState` read by `InitiativeEngine.evaluate` and
`_choose_topic` (the needs slot is the engine's five-field snapshot,
which is what the attribute reads assume). -/
structure InitState where
  last_user_message : Option String := none
  needs : NeedSnapshot := {}
  relationship : RelationshipSnapshot := {}
  emotion : EmotionSnapshot := {}
  mood : MoodSnapshot := {}
deriving DecidableEq, Repr

/-- From `InitiativeEngine._choose_topic`: pick what Nova wants to talk
about. -/
def _choose_topic (state : InitState) : String :=
  if state.needs.affection > 0.6 then "Hey… can I ask you something?"
  else if state.mood.valence > 0.4 then "So um… what are you doing right now?"
  else if state.mood.valence < -0.3 then "Mmm… it\x27s been a weird day."
  else if state.needs.fatigue > 0.7 then "*yawn* …how are you?"
  else "Hey…"

/-- From `InitiativeEngine.evaluate`: the probabilistic initiative gate.
`cooldown` is the engine's counter (returned updated alongside the
result); `randFloat` models `random.random()` and `randInt` models
`random.randint(3, 8)`.  A last user message containing `"?"` or a
direct-question turn returns no action before anything else is
consulted. -/
def evaluate (cooldown : ℤ) (nova_state : InitState)
    (ctx_is_direct_question : Bool) (randFloat : ℚ) (randInt : ℤ) :
    Option InitiativeIntent × ℤ :=
  if strContains (nova_state.last_user_message.getD "") "?" then
    (none, cooldown)
  else if ctx_is_direct_question then (none, cooldown)
  else if cooldown > 0 then (none, cooldown - 1)
  else
    let trust := nova_state.relationship.trust
    let affection := nova_state.needs.affection
    let fatigue := nova_state.needs.fatigue
    let chance := (0.1 : ℚ)
    let chance := if affection > 0.55 then chance + 0.2 else chance
    let chance :=
      if nova_state.emotion.intensity > 0.6 then chance + 0.15 else chance
    let chance := if trust > 0.6 then chance + 0.1 else chance
    let chance := if fatigue > 0.6 then chance - 0.15 else chance
    if trust < 0.25 then (none, cooldown)
    else if randFloat > chance then (none, cooldown)
    else
      let message := _choose_topic nova_state
      if message = "" then (none, cooldown)
      else (some { content := message, priority := chance }, randInt)

/-- The discard in `BrainLoop.process_turn` step 15: on a
direct-question turn the initiative result is dropped. -/
def brainloop_initiative_gate (ctx_is_direct_question : Bool)
    (initiative_intent : Option InitiativeIntent) : Option InitiativeIntent :=
  if ctx_is_direct_question then none else initiative_intent

/-- The subsequent application of the (possibly discarded) initiative to
the built intent in `BrainLoop.process_turn`. -/
def brainloop_apply_initiative (intent : Intent)
    (initiative_intent : Option InitiativeIntent) : Intent :=
  match initiative_intent with
  | some ii =>
      if ii.priority > 0.6 then
        { intent with content_goal := ii.content, speaking_mode := "question" }
      else
        { intent with ask_back := false, memory_hint := some ii.content }
  | none => intent

/-- Claim C8: `evaluate` returns no action whenever the last user
message contains `"?"` or the turn is flagged as a direct question,
regardless of cooldown, needs, trust, emotion or random draw; and the
orchestrator's gate discards any initiative result on a direct-question
turn, leaving the intent unchanged. -/
theorem initiative_suppressed_on_questions :
    (∀ (cooldown : ℤ) (st : InitState) (d : Bool) (rf : ℚ) (ri : ℤ),
      strContains (st.last_user_message.getD "") "?" = true →
      (evaluate cooldown st d rf ri).1 = none) ∧
    (∀ (cooldown : ℤ) (st : InitState) (rf : ℚ) (ri : ℤ),
      (evaluate cooldown st true rf ri).1 = none) ∧
    (∀ init : Option InitiativeIntent,
      brainloop_initiative_gate true init = none) ∧
    (∀ (intent : Intent) (init : Option InitiativeIntent),
      brainloop_apply_initiative intent (brainloop_initiative_gate true init)
        = intent) := by
  refine ⟨?_, ?_, fun init => rfl, fun intent init => rfl⟩
  · intro cooldown st d rf ri hq
    unfold evaluate
    rw [hq]
    rfl
  · intro cooldown st rf ri
    unfold evaluate
    by_cases hq : strContains (st.last_user_message.getD "") "?"
    · rw [hq]; rfl
    · rw [Bool.not_eq_true] at hq
      rw [hq]
      rfl

/-- Witness for C8: a concrete state whose last user message is
`"really?"` yields no initiative even with zero cooldown, maximal
trust/affection and a winning random draw. -/
theorem initiative_suppressed_on_questions_witness :
    (evaluate 0
      { last_user_message := some "really?",
        needs := { affection := 1 },
        relationship := { trust := 1 } }
      false 0 5).1 = none := by
  refine initiative_suppressed_on_questions.1 0 _ false 0 5 ?_
  with_unfolding_all decide

/-! ## speech/llm_bridge.py -/

/-- The content slot of a choice message
(`message.get("content") or ""`; `none` models a missing or null
content). -/
structure RawMsg where
  content : Option String
deriving DecidableEq, Repr

/-- One entry of the response's `choices` list
(`choices[0].get("message") or {}`). -/
structure RawChoice where
  message : Option RawMsg
deriving DecidableEq, Repr

/-- The parsed JSON response body; `choices = none` models a missing or
falsy `"choices"` key. -/
structure RawJson where
  choices : Option (List RawChoice)
deriving DecidableEq, Repr

/-- The outcome of the HTTP text-generation call made by
`LlmBridge._call_llm`: the request may raise (transport error), return a
non-OK status, return unparseable JSON, or succeed with a parsed body
(`none` standing for an empty — falsy — JSON object). -/
inductive CallOutcome where
  | transportError
  | httpNotOk
  | jsonParseError
  | success (raw : Option RawJson)
deriving DecidableEq, Repr

/-- From `LlmBridge._call_llm`: every failure path is caught and
logged, and the function returns the empty dict `{}` (here `none`) for
all three failure kinds; only a successful, parseable response returns
its body.  No exception propagates. -/
def _call_llm (outcome : CallOutcome) : Option RawJson :=
  match outcome with
  | .success raw => raw
  | _ => none

/-- From `LlmBridge._derive_temperature`: playfulness-adjusted sampling
temperature, clamped to `[0.3, 1.0]`. -/
def _derive_temperature (base_temperature : ℚ) (intent : Intent) : ℚ :=
  let delta := (intent.playfulness - 0.5) * 0.3
  let t := base_temperature + delta
  max 0.3 (min 1.0 t)

/-- From `LlmBridge._extract_reply_text`: first choice text of an
OpenAI-compatible response, `""` on any missing piece. -/
def _extract_reply_text (raw : Option RawJson) : String :=
  match raw with
  | none => ""
  | some r =>
      match r.choices.getD [] with
      | [] => ""
      | c :: _ => ((c.message.getD { content := none }).content).getD ""

/-- The fixed fallback reply of `LlmBridge.generate_reply`. -/
def FALLBACK_REPLY : String :=
  "...sorry, my head just went blank for a second. Can you repeat that?"

/-- From `LlmBridge.generate_reply`: call the LLM (the outcome of that
external call is the `outcome` argument; the prompt messages built from
the other arguments do not influence the control flow modelled here),
extract the first-choice text, substitute the fixed fallback when the
extraction is empty, and return the stripped reply.  The embedding is a
total function: no failure of the call escapes to the caller. -/
def generate_reply (user_message : String) (intent : Intent)
    (persona_brief : String) (system_overrides : Option String)
    (outcome : CallOutcome) : String :=
  let raw := _call_llm outcome
  let reply := _extract_reply_text raw
  let reply := if reply = "" then FALLBACK_REPLY else reply
  pyStrip reply

/-- Claim C9: for every input and every failed outcome of the external
call — transport error, non-OK HTTP status, malformed JSON, empty or
choice-less JSON body, empty completion text — `generate_reply` returns
the fixed fallback string, which is nonempty; no failure propagates
(the embedding is total). -/
theorem generate_reply_fallback :
    (∀ (um : String) (intent : Intent) (pb : String) (so : Option String)
        (outcome : CallOutcome),
      _extract_reply_text (_call_llm outcome) = "" →
      generate_reply um intent pb so outcome = FALLBACK_REPLY) ∧
    _call_llm .transportError = none ∧
    _call_llm .httpNotOk = none ∧
    _call_llm .jsonParseError = none ∧
    _call_llm (.success none) = none ∧
    _extract_reply_text none = "" ∧
    (∀ r : RawJson, r.choices = none ∨ r.choices = some [] →
      _extract_reply_text (some r) = "") ∧
    (∀ (r : RawJson) (c : RawChoice) (rest : List RawChoice),
      r.choices = some (c :: rest) →
      ((c.message.getD { content := none }).content).getD "" = "" →
      _extract_reply_text (some r) = "") ∧
    FALLBACK_REPLY ≠ "" ∧
    pyStrip FALLBACK_REPLY = FALLBACK_REPLY := by
  refine ⟨?_, rfl, rfl, rfl, rfl, rfl, ?_, ?_, ?_, ?_⟩
  · intro um intent pb so outcome hempty
    unfold generate_reply
    dsimp only
    rw [hempty]
    show pyStrip (if ("" : String) = "" then FALLBACK_REPLY else "")
      = FALLBACK_REPLY
    rw [if_pos rfl]
    with_unfolding_all decide
  · intro r hr
    rcases hr with hr | hr <;>
      simp [_extract_reply_text, hr]
  · intro r c rest hr hc
    simp [_extract_reply_text, hr, hc]
  · with_unfolding_all decide
  · with_unfolding_all decide

/-- Witness for C9: a transport error on a concrete call yields exactly
the fallback reply. -/
theorem generate_reply_fallback_witness :
    generate_reply "hello"
      { emotion_label := "neutral", fusion_label := none,
        mood_label := "neutral", maturity := 0.5,
        relationship_label := "stranger", openness := 0.5,
        vulnerability := 0.5, playfulness := 0.5,
        speaking_mode := "answer", tone_style := "calm",
        content_goal := "g" }
      "persona" none .transportError = FALLBACK_REPLY := by
  exact generate_reply_fallback.1 "hello" _ "persona" none .transportError rfl

end NovaCore
